import Mathlib

set_option maxHeartbeats 1000000

/-
Verification of the deployment/inference pipeline glue code

The development embeds the pipeline steps of src/deployment_pipeline.py:
the deployment trigger, the MLFlow prediction-service locator, and the
predictor step, it models the JSON serialize/parse round trip
(json.dumps / json.loads) that the predictor applies to its payload, and
the pandas DataFrame reshaping that rebuilds rows under a hardcoded
12-column schema.  Python floats are modelled as rationals, JSON numbers
as integers; Python dicts are modelled as insertion-ordered association
lists, which matches the dict semantics the predictor relies on.
-/

/- Characters that are written via their code points so that character
literals stay unambiguous: double quote, backslash, braces, and the
whitespace/control characters used by the JSON escapes. -/

def quoteC : Char := Char.ofNat 34

def backslashC : Char := Char.ofNat 92

def lbraceC : Char := Char.ofNat 123

def rbraceC : Char := Char.ofNat 125

def nlC : Char := Char.ofNat 10

def tabC : Char := Char.ofNat 9

def crC : Char := Char.ofNat 13

def bsC : Char := Char.ofNat 8

def ffC : Char := Char.ofNat 12

/-- Model of the Python values that appear in the predictor's JSON
payloads: numbers (modelled as integers), strings, booleans, None,
float NaN (which Python's json module writes as the literal NaN and is
the padding value pandas inserts for ragged rows), arrays and objects.
Objects are insertion-ordered association lists, as Python dicts are. -/
inductive Json where
  | num (n : Int)
  | str (s : String)
  | bool (b : Bool)
  | null
  | nan
  | arr (elems : List Json)
  | obj (fields : List (String × Json))

/- Serializer: model of json.dumps with its default separators
(comma-space between items, colon-space after keys) and the default
escaping of quotes, backslashes and common control characters. -/

def escapeChar (c : Char) : List Char :=
  if c = quoteC then [backslashC, quoteC]
  else if c = backslashC then [backslashC, backslashC]
  else if c = nlC then [backslashC, 'n']
  else if c = tabC then [backslashC, 't']
  else if c = crC then [backslashC, 'r']
  else [c]

def escapeList : List Char → List Char
  | [] => []
  | c :: cs => escapeChar c ++ escapeList cs

def serString (s : String) : List Char :=
  quoteC :: escapeList s.data ++ [quoteC]

def natChars (n : Nat) : List Char :=
  if _h : n < 10 then [Nat.digitChar n]
  else natChars (n / 10) ++ [Nat.digitChar (n % 10)]
decreasing_by exact Nat.div_lt_self (by omega) (by omega)

def serInt (n : Int) : List Char :=
  if n < 0 then '-' :: natChars n.natAbs else natChars n.toNat

mutual

def serialize : Json → List Char
  | .num n => serInt n
  | .str s => serString s
  | .bool b => if b then ['t', 'r', 'u', 'e'] else ['f', 'a', 'l', 's', 'e']
  | .null => ['n', 'u', 'l', 'l']
  | .nan => ['N', 'a', 'N']
  | .arr [] => ['[', ']']
  | .arr (e :: es) => '[' :: serialize e ++ serItemsRest es ++ [']']
  | .obj [] => [lbraceC, rbraceC]
  | .obj ((k, v) :: fs) =>
    lbraceC :: serString k ++ ':' :: ' ' :: serialize v ++ serFieldsRest fs ++ [rbraceC]

def serItemsRest : List Json → List Char
  | [] => []
  | e :: es => ',' :: ' ' :: serialize e ++ serItemsRest es

def serFieldsRest : List (String × Json) → List Char
  | [] => []
  | (k, v) :: fs =>
    ',' :: ' ' :: serString k ++ ':' :: ' ' :: serialize v ++ serFieldsRest fs

end

/-- Model of Python json.dumps restricted to the value shapes above. -/
def json_dumps (v : Json) : String := String.mk (serialize v)

/- Parser: model of json.loads for the same value shapes. -/

def isWsChar (c : Char) : Bool :=
  c = ' ' || c = nlC || c = tabC || c = crC

def skipWs : List Char → List Char
  | [] => []
  | c :: r => if isWsChar c then skipWs r else c :: r

def unescapeChar (c : Char) : Option Char :=
  if c = quoteC then some quoteC
  else if c = backslashC then some backslashC
  else if c = '/' then some '/'
  else if c = 'n' then some nlC
  else if c = 't' then some tabC
  else if c = 'r' then some crC
  else if c = 'b' then some bsC
  else if c = 'f' then some ffC
  else none

def parseStringBody : List Char → Option (List Char × List Char)
  | [] => none
  | c :: r =>
    if c = quoteC then some ([], r)
    else if c = backslashC then
      match r with
      | [] => none
      | e :: r2 =>
        match unescapeChar e, parseStringBody r2 with
        | some u, some p => some (u :: p.1, p.2)
        | _, _ => none
    else
      match parseStringBody r with
      | some p => some (c :: p.1, p.2)
      | none => none

def digitVal (c : Char) : Nat := c.toNat - 48

def digitsVal (cs : List Char) : Nat :=
  cs.foldl (fun a c => 10 * a + digitVal c) 0

def parseNat (s : List Char) : Option (Nat × List Char) :=
  let ds := s.takeWhile Char.isDigit
  if ds = [] then none else some (digitsVal ds, s.dropWhile Char.isDigit)

def parseLit : List Char → List Char → Option (List Char)
  | [], s => some s
  | l :: ls, c :: cs => if c = l then parseLit ls cs else none
  | _ :: _, [] => none

/- The parser functions take the remaining input with leading whitespace
already skipped; every recursive call passes a strictly smaller fuel so
recursion is structural and the functions evaluate by reduction. -/

mutual

def parseTok : Nat → List Char → Option (Json × List Char)
  | _, [] => none
  | fuel, c :: r =>
    if c = quoteC then
      match parseStringBody r with
      | some (cs, rr) => some (Json.str (String.mk cs), rr)
      | none => none
    else if c = '[' then
      let r1 := skipWs r
      if r1.head? = some ']' then some (Json.arr [], r1.tail)
      else
        match fuel with
        | 0 => none
        | fuel' + 1 =>
          match parseTok fuel' r1 with
          | some (v, r2) =>
            match parseArrayRestTok fuel' (skipWs r2) with
            | some (vs, r3) => some (Json.arr (v :: vs), r3)
            | none => none
          | none => none
    else if c = lbraceC then
      match skipWs r with
      | [] => none
      | c2 :: r2 =>
        if c2 = rbraceC then some (Json.obj [], r2)
        else
          match fuel with
          | 0 => none
          | fuel' + 1 =>
            match parseFieldTok fuel' (c2 :: r2) with
            | some (f, r3) =>
              match parseObjRestTok fuel' (skipWs r3) with
              | some (fs, r4) => some (Json.obj (f :: fs), r4)
              | none => none
            | none => none
    else if c = 't' then
      match parseLit ['r', 'u', 'e'] r with
      | some rr => some (Json.bool true, rr)
      | none => none
    else if c = 'f' then
      match parseLit ['a', 'l', 's', 'e'] r with
      | some rr => some (Json.bool false, rr)
      | none => none
    else if c = 'n' then
      match parseLit ['u', 'l', 'l'] r with
      | some rr => some (Json.null, rr)
      | none => none
    else if c = 'N' then
      match parseLit ['a', 'N'] r with
      | some rr => some (Json.nan, rr)
      | none => none
    else if c = '-' then
      match parseNat r with
      | some (m, rr) => some (Json.num (-(m : Int)), rr)
      | none => none
    else if c.isDigit then
      match parseNat (c :: r) with
      | some (m, rr) => some (Json.num (m : Int), rr)
      | none => none
    else none

def parseFieldTok : Nat → List Char → Option ((String × Json) × List Char)
  | fuel, s =>
    match s with
    | [] => none
    | c :: r =>
      if c = quoteC then
        match parseStringBody r with
        | some (kcs, r2) =>
          match skipWs r2 with
          | [] => none
          | c2 :: r3 =>
            if c2 = ':' then
              match fuel with
              | 0 => none
              | fuel' + 1 =>
                match parseTok fuel' (skipWs r3) with
                | some (v, r4) => some ((String.mk kcs, v), r4)
                | none => none
            else none
        | none => none
      else none

def parseArrayRestTok : Nat → List Char → Option (List Json × List Char)
  | fuel, s =>
    match s with
    | ']' :: r => some ([], r)
    | ',' :: r =>
      match fuel with
      | 0 => none
      | fuel' + 1 =>
        match parseTok fuel' (skipWs r) with
        | some (v, r2) =>
          match parseArrayRestTok fuel' (skipWs r2) with
          | some (vs, r3) => some (v :: vs, r3)
          | none => none
        | none => none
    | _ => none

def parseObjRestTok : Nat → List Char → Option (List (String × Json) × List Char)
  | fuel, s =>
    match s with
    | [] => none
    | c :: r =>
      if c = rbraceC then some ([], r)
      else if c = ',' then
        match fuel with
        | 0 => none
        | fuel' + 1 =>
          match parseFieldTok fuel' (skipWs r) with
          | some (f, r2) =>
            match parseObjRestTok fuel' (skipWs r2) with
            | some (fs, r3) => some (f :: fs, r3)
            | none => none
          | none => none
      else none

end

/-- Model of Python json.loads: parse one value, allowing surrounding
whitespace, and reject trailing garbage. -/
def json_loads (s : String) : Option Json :=
  match parseTok (s.data.length + 1) (skipWs s.data) with
  | some (v, rest) => if skipWs rest = [] then some v else none
  | none => none

/- Fuel measure for the parser lemmas. -/

mutual

def jsize : Json → Nat
  | .num _ => 1
  | .str _ => 1
  | .bool _ => 1
  | .null => 1
  | .nan => 1
  | .arr [] => 1
  | .arr (e :: es) => 1 + jsize e + jsizeItems es
  | .obj [] => 1
  | .obj ((_, v) :: fs) => 2 + jsize v + jsizeFields fs

def jsizeItems : List Json → Nat
  | [] => 0
  | e :: es => 1 + jsize e + jsizeItems es

def jsizeFields : List (String × Json) → Nat
  | [] => 0
  | (_, v) :: fs => 2 + jsize v + jsizeFields fs

end

/-- Input suffixes that cannot extend a numeric literal: used to state
that parsing a serialized number stops at the right place. -/
def numSafe (rest : List Char) : Prop :=
  ∀ c, rest.head? = some c → c.isDigit = false

/- Embedding of src/deployment_pipeline.py -/

/-- Deployment Trigger Config: the min_accuracy parameter, whose default
in the source is 0.  Accuracies are Python floats, modelled as
rationals. -/
structure DeploymentTriggerConfig where
  min_accuracy : ℚ

/-- Default value of the min_accuracy field of DeploymentTriggerConfig. -/
def DeploymentTriggerConfig.default_min_accuracy : ℚ := 0

/-- The deployment_trigger step: returns accuracy > config.min_accuracy. -/
def deployment_trigger (accuracy : ℚ) (config : DeploymentTriggerConfig) : Bool :=
  decide (accuracy > config.min_accuracy)

/-- The error message raised by prediction_service_loader when no
matching service exists; concatenation of the f-strings in the source. -/
def loader_error_message (pipeline_name pipeline_step_name model_name : String) : String :=
  "No MLFlow Deployment service found for pipeline " ++ pipeline_name ++
  ". step " ++ pipeline_step_name ++ " and model " ++ model_name ++
  ". Pipeline for the '" ++ model_name ++ "' model is currently running."

/-- Default of the running parameter of prediction_service_loader. -/
def prediction_service_loader_default_running : Bool := true

/-- Default of the model_name parameter of prediction_service_loader. -/
def prediction_service_loader_default_model_name : String := "model"

/-- The prediction_service_loader step.  The external deployer component
obtained from MLFlowModelDeployer.get_active_model_deployer is modelled
by its find_model_server method, a function from the query parameters
(pipeline name, step name, model name, running flag) to the list of
matching services.  An empty result raises RuntimeError with the message
above; otherwise the first service of the list is returned. -/
def prediction_service_loader {Service : Type}
    (find_model_server : String → String → String → Bool → List Service)
    (pipeline_name : String) (pipeline_step_name : String)
    (running : Bool) (model_name : String) : Except String Service :=
  match find_model_server pipeline_name pipeline_step_name model_name running with
  | [] => Except.error (loader_error_message pipeline_name pipeline_step_name model_name)
  | svc :: _ => Except.ok svc

/-- The argument tuple of one call to prediction_service_loader. -/
structure LoaderCall where
  pipeline_name : String
  pipeline_step_name : String
  running : Bool
  model_name : String

/-- The loader call made by inference_pipeline: the source passes
pipeline_name, pipeline_step_name and running=False, and leaves
model_name at the loader's default "model". -/
def inference_pipeline_loader_call (pipeline_name pipeline_step_name : String) : LoaderCall :=
  ⟨pipeline_name, pipeline_step_name, false, prediction_service_loader_default_model_name⟩

/-- Stages at which predictor can fail before reaching the service's
predict call: malformed JSON in json.loads, a non-dict payload (pop on a
non-dict raises), a missing key (pop without default or the data lookup
raises KeyError), a column-count mismatch in the pandas DataFrame
constructor (ValueError), or a failure of the internal
json.loads(json.dumps(...)) round trip. -/
inductive PredictorFailure where
  | jsonError
  | typeError
  | keyError (key : String)
  | dataFrameError
  | roundTripError

/-- Observable behaviour of one run of the predictor step: the timeout
value passed to service.start, and either the value forwarded to
service.predict (the row records wrapped by np.array) or the local
failure stage reached before forwarding. -/
structure PredictorRun where
  startTimeout : Nat
  outcome : Except PredictorFailure Json

/-- Python dict.pop(k) without default: error when the key is absent,
otherwise the dict without that key. -/
def dict_pop (fields : List (String × Json)) (k : String) :
    Option (List (String × Json)) :=
  match fields.lookup k with
  | some _ => some (fields.filter (fun kv => kv.1 != k))
  | none => none

/-- The hardcoded feature schema of the predictor (columns_for_df). -/
def columns_for_df : List String :=
  ["payment_sequential",
   "payment_installments",
   "payment_value",
   "price",
   "freight_value",
   "product_name_lenght",
   "product_description_lenght",
   "product_photos_qty",
   "product_weight_g",
   "product_length_cm",
   "product_height_cm",
   "product_width_cm"]

/-- Reads the payload's data field as a list of rows, each a list of
values.  Any other shape makes the pandas constructor fail. -/
def asRowsList : List Json → Option (List (List Json))
  | [] => some []
  | Json.arr r :: es =>
    match asRowsList es with
    | some rs => some (r :: rs)
    | none => none
  | _ :: _ => none

def asRows : Json → Option (List (List Json)) :=
  fun j =>
    match j with
    | Json.arr elems => asRowsList elems
    | _ => none

def max_row_width (rows : List (List Json)) : Nat :=
  rows.foldr (fun r acc => max r.length acc) 0

def pad_row (w : Nat) (r : List Json) : List Json :=
  r ++ List.replicate (w - r.length) Json.nan

/-- Model of pandas pd.DataFrame(rows, columns) on list-of-lists data:
ragged rows are padded with NaN to the maximal row width, and a
ValueError is raised when that width differs from the number of column
names.  An empty data list yields an empty frame. -/
def pd_DataFrame (data_rows : List (List Json)) (columns : List String) :
    Option (List (List Json)) :=
  match data_rows with
  | [] => some []
  | _ =>
    if max_row_width data_rows = columns.length then
      some (data_rows.map (pad_row columns.length))
    else none

/-- Model of list(df.T.to_dict().values()): one record per DataFrame row,
mapping each column name to the row's value in that column, in column
order (Python dicts preserve insertion order). -/
def df_records (columns : List String) (rows : List (List Json)) :
    List (List (String × Json)) :=
  rows.map (fun r => columns.zip r)

/-- Outcome of the predictor step body on a payload string, following
the source line by line: json.loads(data); data.pop("columns");
data.pop("index"); pd.DataFrame(data["data"], columns=columns_for_df);
json.loads(json.dumps(list(df.T.to_dict().values()))); np.array(...);
service.predict(...).  The Except value is the np.array argument
forwarded to service.predict, or the stage of the local failure. -/
def predictor_outcome (data : String) : Except PredictorFailure Json :=
  match json_loads data with
  | none => Except.error PredictorFailure.jsonError
  | some parsed =>
    match parsed with
    | Json.obj fields0 =>
      match dict_pop fields0 "columns" with
      | none => Except.error (PredictorFailure.keyError "columns")
      | some fields1 =>
        match dict_pop fields1 "index" with
        | none => Except.error (PredictorFailure.keyError "index")
        | some fields2 =>
          match fields2.lookup "data" with
          | none => Except.error (PredictorFailure.keyError "data")
          | some dataVal =>
            match asRows dataVal with
            | none => Except.error PredictorFailure.dataFrameError
            | some rows =>
              match pd_DataFrame rows columns_for_df with
              | none => Except.error PredictorFailure.dataFrameError
              | some df_rows =>
                let records := df_records columns_for_df df_rows
                match json_loads (json_dumps (Json.arr (records.map Json.obj))) with
                | none => Except.error PredictorFailure.roundTripError
                | some round_tripped => Except.ok round_tripped
    | _ => Except.error PredictorFailure.typeError

/-- The predictor step: service.start(timeout=10) is called first with
the hardcoded timeout, then the payload is reshaped and forwarded. -/
def predictor (data : String) : PredictorRun :=
  ⟨10, predictor_outcome data⟩

/-- The inference pipeline: dynamic_importer fetches the payload string,
prediction_service_loader is called with running=False and the default
model name, and the located service is used by predictor. -/
def inference_pipeline {Service : Type}
    (find_model_server : String → String → String → Bool → List Service)
    (imported_data : String) (pipeline_name pipeline_step_name : String) :
    Except String (Service × PredictorRun) :=
  match prediction_service_loader find_model_server pipeline_name pipeline_step_name
      (inference_pipeline_loader_call pipeline_name pipeline_step_name).running
      (inference_pipeline_loader_call pipeline_name pipeline_step_name).model_name with
  | Except.error e => Except.error e
  | Except.ok svc => Except.ok (svc, predictor imported_data)

/- Helper lemmas: whitespace skipping -/

theorem skipWs_not_ws {c : Char} (l : List Char) (h : isWsChar c = false) :
    skipWs (c :: l) = c :: l := by
  simp [skipWs, h]

theorem skipWs_ws {c : Char} (l : List Char) (h : isWsChar c = true) :
    skipWs (c :: l) = skipWs l := by
  simp [skipWs, h]

/- Helper lemmas: string bodies -/

@[simp] theorem escapeChar_quoteC : escapeChar quoteC = [backslashC, quoteC] := rfl

@[simp] theorem escapeChar_backslashC : escapeChar backslashC = [backslashC, backslashC] := rfl

@[simp] theorem escapeChar_nlC : escapeChar nlC = [backslashC, 'n'] := rfl

@[simp] theorem escapeChar_tabC : escapeChar tabC = [backslashC, 't'] := rfl

@[simp] theorem escapeChar_crC : escapeChar crC = [backslashC, 'r'] := rfl

theorem escapeChar_other {c : Char} (h1 : c ≠ quoteC) (h2 : c ≠ backslashC)
    (h3 : c ≠ nlC) (h4 : c ≠ tabC) (h5 : c ≠ crC) : escapeChar c = [c] := by
  simp [escapeChar, h1, h2, h3, h4, h5]

@[simp] theorem backslashC_ne_quoteC : backslashC ≠ quoteC := by decide

@[simp] theorem nlC_ne_quoteC : nlC ≠ quoteC := by decide

@[simp] theorem nlC_ne_backslashC : nlC ≠ backslashC := by decide

@[simp] theorem tabC_ne_quoteC : tabC ≠ quoteC := by decide

@[simp] theorem tabC_ne_backslashC : tabC ≠ backslashC := by decide

@[simp] theorem crC_ne_quoteC : crC ≠ quoteC := by decide

@[simp] theorem crC_ne_backslashC : crC ≠ backslashC := by decide

@[simp] theorem unescapeChar_quoteC : unescapeChar quoteC = some quoteC := by decide

@[simp] theorem unescapeChar_backslashC : unescapeChar backslashC = some backslashC := by decide

@[simp] theorem unescapeChar_n : unescapeChar 'n' = some nlC := by decide

@[simp] theorem unescapeChar_t : unescapeChar 't' = some tabC := by decide

@[simp] theorem unescapeChar_r : unescapeChar 'r' = some crC := by decide

@[simp] theorem parseStringBody_quoteC (r : List Char) :
    parseStringBody (quoteC :: r) = some ([], r) := by
  rw [parseStringBody.eq_def]
  simp

@[simp] theorem parseStringBody_backslashC (e : Char) (r : List Char) :
    parseStringBody (backslashC :: e :: r) =
      match unescapeChar e, parseStringBody r with
      | some u, some p => some (u :: p.1, p.2)
      | _, _ => none := by
  rw [parseStringBody.eq_def]
  simp

theorem parseStringBody_other {c : Char} (h1 : c ≠ quoteC) (h2 : c ≠ backslashC)
    (r : List Char) :
    parseStringBody (c :: r) =
      match parseStringBody r with
      | some p => some (c :: p.1, p.2)
      | none => none := by
  rw [parseStringBody.eq_def]
  simp [h1, h2]

theorem parseStringBody_escape (cs rest : List Char) :
    parseStringBody (escapeList cs ++ quoteC :: rest) = some (cs, rest) := by
  induction cs with
  | nil =>
    simp [escapeList]
  | cons c cs ih =>
    by_cases h1 : c = quoteC
    · subst h1
      simp [escapeList, ih]
    · by_cases h2 : c = backslashC
      · subst h2
        simp [escapeList, ih]
      · by_cases h3 : c = nlC
        · subst h3
          simp [escapeList, ih]
        · by_cases h4 : c = tabC
          · subst h4
            simp [escapeList, ih]
          · by_cases h5 : c = crC
            · subst h5
              simp [escapeList, ih]
            · rw [escapeList, escapeChar_other h1 h2 h3 h4 h5]
              simp only [List.cons_append, List.nil_append]
              rw [parseStringBody_other h1 h2]
              rw [ih]

/- Helper lemmas: decimal digits -/

theorem digitChar_facts (d : Nat) (h : d < 10) :
    (Nat.digitChar d).isDigit = true ∧ (Nat.digitChar d).toNat = 48 + d ∧
    isWsChar (Nat.digitChar d) = false ∧ Nat.digitChar d ≠ quoteC ∧
    Nat.digitChar d ≠ '[' ∧ Nat.digitChar d ≠ lbraceC ∧
    Nat.digitChar d ≠ 't' ∧ Nat.digitChar d ≠ 'f' ∧
    Nat.digitChar d ≠ 'n' ∧ Nat.digitChar d ≠ 'N' ∧
    Nat.digitChar d ≠ '-' ∧ Nat.digitChar d ≠ ']' := by
  interval_cases d <;> decide

theorem natChars_shape (n : Nat) :
    ∃ d ds, natChars n = Nat.digitChar d :: ds ∧ d < 10 := by
  induction n using Nat.strong_induction_on with
  | _ n ih =>
    by_cases h : n < 10
    · refine ⟨n, [], ?_, h⟩
      rw [natChars]
      simp [h]
    · obtain ⟨d, ds, hds, hd⟩ := ih (n / 10) (Nat.div_lt_self (by omega) (by omega))
      refine ⟨d, ds ++ [Nat.digitChar (n % 10)], ?_, hd⟩
      rw [natChars]
      simp [h, hds]

theorem natChars_ne_nil (n : Nat) : natChars n ≠ [] := by
  obtain ⟨d, ds, hds, _⟩ := natChars_shape n
  simp [hds]

theorem natChars_digits (n : Nat) : ∀ c ∈ natChars n, c.isDigit = true := by
  induction n using Nat.strong_induction_on with
  | _ n ih =>
    by_cases h : n < 10
    · rw [natChars]
      simp only [h, dif_pos]
      intro c hc
      simp at hc
      subst hc
      exact (digitChar_facts n h).1
    · rw [natChars]
      simp only [h, dif_neg, not_false_iff]
      intro c hc
      rw [List.mem_append] at hc
      rcases hc with hc | hc
      · exact ih (n / 10) (Nat.div_lt_self (by omega) (by omega)) c hc
      · simp at hc
        subst hc
        exact (digitChar_facts (n % 10) (by omega)).1

theorem digitsVal_append_one (xs : List Char) (c : Char) :
    digitsVal (xs ++ [c]) = 10 * digitsVal xs + digitVal c := by
  simp [digitsVal, List.foldl_append]

theorem digitsVal_natChars (n : Nat) : digitsVal (natChars n) = n := by
  induction n using Nat.strong_induction_on with
  | _ n ih =>
    by_cases h : n < 10
    · rw [natChars]
      simp only [h, dif_pos]
      have := (digitChar_facts n h).2.1
      simp [digitsVal, digitVal, this]
    · rw [natChars]
      simp only [h, dif_neg, not_false_iff]
      rw [digitsVal_append_one]
      rw [ih (n / 10) (Nat.div_lt_self (by omega) (by omega))]
      have := (digitChar_facts (n % 10) (by omega)).2.1
      simp [digitVal, this]
      omega

theorem takeWhile_all_append {p : Char → Bool} (xs rest : List Char)
    (hxs : ∀ x ∈ xs, p x = true)
    (hrest : ∀ c, rest.head? = some c → p c = false) :
    (xs ++ rest).takeWhile p = xs ∧ (xs ++ rest).dropWhile p = rest := by
  induction xs with
  | nil =>
    cases rest with
    | nil => simp
    | cons c r =>
      have hc := hrest c rfl
      simp [List.takeWhile_cons, List.dropWhile_cons, hc]
  | cons x xs ih =>
    have hx := hxs x (by simp)
    have hrec := ih (fun y hy => hxs y (by simp [hy]))
    simp [List.takeWhile_cons, List.dropWhile_cons, hx, hrec.1, hrec.2]

theorem parseNat_natChars (n : Nat) (rest : List Char) (hrest : numSafe rest) :
    parseNat (natChars n ++ rest) = some (n, rest) := by
  have h := takeWhile_all_append (p := Char.isDigit) (natChars n) rest
    (natChars_digits n) (fun c hc => hrest c hc)
  simp [parseNat, h.1, h.2, natChars_ne_nil n, digitsVal_natChars n]

/- Helper lemmas: parsing one serialized token -/

theorem chr_lbracket_ne_quoteC : ('[' : Char) ≠ quoteC := by decide

theorem chr_lbraceC_facts : lbraceC ≠ quoteC ∧ lbraceC ≠ '[' := by decide

theorem chr_t_facts : ('t' : Char) ≠ quoteC ∧ ('t' : Char) ≠ '[' ∧ ('t' : Char) ≠ lbraceC := by decide

theorem chr_f_facts : ('f' : Char) ≠ quoteC ∧ ('f' : Char) ≠ '[' ∧ ('f' : Char) ≠ lbraceC ∧
    ('f' : Char) ≠ 't' := by decide

theorem chr_n_facts : ('n' : Char) ≠ quoteC ∧ ('n' : Char) ≠ '[' ∧ ('n' : Char) ≠ lbraceC ∧
    ('n' : Char) ≠ 't' ∧ ('n' : Char) ≠ 'f' := by decide

theorem chr_N_facts : ('N' : Char) ≠ quoteC ∧ ('N' : Char) ≠ '[' ∧ ('N' : Char) ≠ lbraceC ∧
    ('N' : Char) ≠ 't' ∧ ('N' : Char) ≠ 'f' ∧ ('N' : Char) ≠ 'n' := by decide

theorem chr_minus_facts : ('-' : Char) ≠ quoteC ∧ ('-' : Char) ≠ '[' ∧ ('-' : Char) ≠ lbraceC ∧
    ('-' : Char) ≠ 't' ∧ ('-' : Char) ≠ 'f' ∧ ('-' : Char) ≠ 'n' ∧ ('-' : Char) ≠ 'N' := by decide

theorem parseTok_quoteC (fuel : Nat) (r : List Char) :
    parseTok fuel (quoteC :: r) =
      match parseStringBody r with
      | some (cs, rr) => some (Json.str (String.mk cs), rr)
      | none => none := by
  rw [parseTok.eq_def]
  simp

theorem parseTok_serString (fuel : Nat) (s : String) (rest : List Char) :
    parseTok fuel (serString s ++ rest) = some (Json.str s, rest) := by
  rw [serString]
  simp only [List.cons_append, List.append_assoc, List.singleton_append]
  rw [parseTok_quoteC]
  rw [parseStringBody_escape]
  simp

theorem parseTok_true (fuel : Nat) (r : List Char) :
    parseTok fuel ('t' :: 'r' :: 'u' :: 'e' :: r) = some (Json.bool true, r) := by
  rw [parseTok.eq_def]
  simp [chr_t_facts.1, chr_t_facts.2.1, chr_t_facts.2.2, parseLit]

theorem parseTok_false (fuel : Nat) (r : List Char) :
    parseTok fuel ('f' :: 'a' :: 'l' :: 's' :: 'e' :: r) = some (Json.bool false, r) := by
  rw [parseTok.eq_def]
  simp [chr_f_facts.1, chr_f_facts.2.1, chr_f_facts.2.2.1, chr_f_facts.2.2.2, parseLit]

theorem parseTok_null (fuel : Nat) (r : List Char) :
    parseTok fuel ('n' :: 'u' :: 'l' :: 'l' :: r) = some (Json.null, r) := by
  rw [parseTok.eq_def]
  simp [chr_n_facts.1, chr_n_facts.2.1, chr_n_facts.2.2.1, chr_n_facts.2.2.2.1,
    chr_n_facts.2.2.2.2, parseLit]

theorem parseTok_nan (fuel : Nat) (r : List Char) :
    parseTok fuel ('N' :: 'a' :: 'N' :: r) = some (Json.nan, r) := by
  rw [parseTok.eq_def]
  simp [chr_N_facts.1, chr_N_facts.2.1, chr_N_facts.2.2.1, chr_N_facts.2.2.2.1,
    chr_N_facts.2.2.2.2.1, chr_N_facts.2.2.2.2.2, parseLit]

theorem parseTok_serInt (fuel : Nat) (n : Int) (rest : List Char) (hrest : numSafe rest) :
    parseTok fuel (serInt n ++ rest) = some (Json.num n, rest) := by
  by_cases hneg : n < 0
  · rw [serInt, if_pos hneg]
    simp only [List.cons_append]
    rw [parseTok.eq_def]
    simp only [chr_minus_facts.1, chr_minus_facts.2.1, chr_minus_facts.2.2.1,
      chr_minus_facts.2.2.2.1, chr_minus_facts.2.2.2.2.1, chr_minus_facts.2.2.2.2.2.1,
      chr_minus_facts.2.2.2.2.2.2, if_false, if_neg, ite_false]
    rw [parseNat_natChars n.natAbs rest hrest]
    have habs : ((n.natAbs : Nat) : Int) = -n := Int.ofNat_natAbs_of_nonpos hneg.le
    simp [habs]
  · rw [serInt, if_neg hneg]
    obtain ⟨d, ds, hds, hd⟩ := natChars_shape n.toNat
    have hf := digitChar_facts d hd
    rw [hds]
    simp only [List.cons_append]
    rw [parseTok.eq_def]
    simp only [hf.2.2.2.1, hf.2.2.2.2.1, hf.2.2.2.2.2.1, hf.2.2.2.2.2.2.1,
      hf.2.2.2.2.2.2.2.1, hf.2.2.2.2.2.2.2.2.1, hf.2.2.2.2.2.2.2.2.2.1,
      hf.2.2.2.2.2.2.2.2.2.2.1, hf.1, if_false, ite_false, ite_true, if_true]
    rw [← List.cons_append, ← hds]
    rw [parseNat_natChars n.toNat rest hrest]
    simp [Int.toNat_of_nonneg (not_lt.mp hneg)]

/- Helper lemmas: serializer equations -/

@[simp] theorem serialize_num (n : Int) : serialize (Json.num n) = serInt n := by
  simp [serialize]

@[simp] theorem serialize_str (s : String) : serialize (Json.str s) = serString s := by
  simp [serialize]

@[simp] theorem serialize_bool (b : Bool) :
    serialize (Json.bool b) = if b then ['t', 'r', 'u', 'e'] else ['f', 'a', 'l', 's', 'e'] := by
  simp [serialize]

@[simp] theorem serialize_null : serialize Json.null = ['n', 'u', 'l', 'l'] := by
  simp [serialize]

@[simp] theorem serialize_nan : serialize Json.nan = ['N', 'a', 'N'] := by
  simp [serialize]

@[simp] theorem serialize_arr_nil : serialize (Json.arr []) = ['[', ']'] := by
  simp [serialize]

@[simp] theorem serialize_arr_cons (e : Json) (es : List Json) :
    serialize (Json.arr (e :: es)) = '[' :: serialize e ++ serItemsRest es ++ [']'] := by
  simp [serialize]

@[simp] theorem serialize_obj_nil : serialize (Json.obj []) = [lbraceC, rbraceC] := by
  simp [serialize]

@[simp] theorem serialize_obj_cons (k : String) (v : Json) (fs : List (String × Json)) :
    serialize (Json.obj ((k, v) :: fs)) =
      lbraceC :: serString k ++ ':' :: ' ' :: serialize v ++ serFieldsRest fs ++ [rbraceC] := by
  simp [serialize]

@[simp] theorem serItemsRest_nil : serItemsRest [] = [] := by
  simp [serItemsRest]

@[simp] theorem serItemsRest_cons (e : Json) (es : List Json) :
    serItemsRest (e :: es) = ',' :: ' ' :: serialize e ++ serItemsRest es := by
  simp [serItemsRest]

@[simp] theorem serFieldsRest_nil : serFieldsRest [] = [] := by
  simp [serFieldsRest]

@[simp] theorem serFieldsRest_cons (k : String) (v : Json) (fs : List (String × Json)) :
    serFieldsRest ((k, v) :: fs) =
      ',' :: ' ' :: serString k ++ ':' :: ' ' :: serialize v ++ serFieldsRest fs := by
  simp [serFieldsRest]

/- Helper lemmas: jsize equations -/

@[simp] theorem jsize_num (n : Int) : jsize (Json.num n) = 1 := by simp [jsize]

@[simp] theorem jsize_str (s : String) : jsize (Json.str s) = 1 := by simp [jsize]

@[simp] theorem jsize_bool (b : Bool) : jsize (Json.bool b) = 1 := by simp [jsize]

@[simp] theorem jsize_null : jsize Json.null = 1 := by simp [jsize]

@[simp] theorem jsize_nan : jsize Json.nan = 1 := by simp [jsize]

@[simp] theorem jsize_arr_nil : jsize (Json.arr []) = 1 := by simp [jsize]

@[simp] theorem jsize_arr_cons (e : Json) (es : List Json) :
    jsize (Json.arr (e :: es)) = 1 + jsize e + jsizeItems es := by simp [jsize]

@[simp] theorem jsize_obj_nil : jsize (Json.obj []) = 1 := by simp [jsize]

@[simp] theorem jsize_obj_cons (k : String) (v : Json) (fs : List (String × Json)) :
    jsize (Json.obj ((k, v) :: fs)) = 2 + jsize v + jsizeFields fs := by simp [jsize]

@[simp] theorem jsizeItems_nil : jsizeItems [] = 0 := by simp [jsizeItems]

@[simp] theorem jsizeItems_cons (e : Json) (es : List Json) :
    jsizeItems (e :: es) = 1 + jsize e + jsizeItems es := by simp [jsizeItems]

@[simp] theorem jsizeFields_nil : jsizeFields [] = 0 := by simp [jsizeFields]

@[simp] theorem jsizeFields_cons (k : String) (v : Json) (fs : List (String × Json)) :
    jsizeFields ((k, v) :: fs) = 2 + jsize v + jsizeFields fs := by simp [jsizeFields]

theorem jsize_pos (v : Json) : 1 ≤ jsize v := by
  cases v with
  | num n => simp
  | str s => simp
  | bool b => simp
  | null => simp
  | nan => simp
  | arr es =>
    cases es with
    | nil => simp
    | cons e es => simp; omega
  | obj fs =>
    cases fs with
    | nil => simp
    | cons f fs =>
      obtain ⟨k, v⟩ := f
      simp
      omega

/- Helper lemmas: heads of serialized values -/

theorem serialize_head (v : Json) :
    ∃ c cs, serialize v = c :: cs ∧ isWsChar c = false ∧ c ≠ ']' := by
  cases v with
  | num n =>
    by_cases hneg : n < 0
    · refine ⟨'-', natChars n.natAbs, ?_, by decide, by decide⟩
      rw [serialize_num, serInt, if_pos hneg]
    · obtain ⟨d, ds, hds, hd⟩ := natChars_shape n.toNat
      have hf := digitChar_facts d hd
      refine ⟨Nat.digitChar d, ds, ?_, hf.2.2.1, hf.2.2.2.2.2.2.2.2.2.2.2⟩
      rw [serialize_num, serInt, if_neg hneg, hds]
  | str s =>
    refine ⟨quoteC, escapeList s.data ++ [quoteC], ?_, by decide, by decide⟩
    rw [serialize_str, serString]
    rfl
  | bool b =>
    cases b with
    | true => exact ⟨'t', ['r', 'u', 'e'], by simp, by decide, by decide⟩
    | false => exact ⟨'f', ['a', 'l', 's', 'e'], by simp, by decide, by decide⟩
  | null => exact ⟨'n', ['u', 'l', 'l'], by simp, by decide, by decide⟩
  | nan => exact ⟨'N', ['a', 'N'], by simp, by decide, by decide⟩
  | arr es =>
    cases es with
    | nil => exact ⟨'[', [']'], by simp, by decide, by decide⟩
    | cons e es =>
      refine ⟨'[', serialize e ++ serItemsRest es ++ [']'], ?_, by decide, by decide⟩
      rw [serialize_arr_cons]
      simp
  | obj fs =>
    cases fs with
    | nil => exact ⟨lbraceC, [rbraceC], by simp, by decide, by decide⟩
    | cons f fs =>
      obtain ⟨k, v⟩ := f
      refine ⟨lbraceC,
        serString k ++ ':' :: ' ' :: serialize v ++ serFieldsRest fs ++ [rbraceC], ?_,
        by decide, by decide⟩
      rw [serialize_obj_cons]
      simp

theorem skipWs_serialize (v : Json) (rest : List Char) :
    skipWs (serialize v ++ rest) = serialize v ++ rest := by
  obtain ⟨c, cs, hser, hws, _⟩ := serialize_head v
  rw [hser, List.cons_append]
  exact skipWs_not_ws _ hws

theorem serialize_head_ne_rbracket (v : Json) (rest : List Char) :
    ¬((serialize v ++ rest).head? = some ']') := by
  obtain ⟨c, cs, hser, _, hne⟩ := serialize_head v
  rw [hser, List.cons_append]
  simp [hne]

theorem skipWs_serString (k : String) (rest : List Char) :
    skipWs (serString k ++ rest) = serString k ++ rest := by
  rw [serString]
  simp only [List.cons_append]
  exact skipWs_not_ws _ (by decide)

theorem skipWs_serItemsRest_close (es : List Json) (rest : List Char) :
    skipWs (serItemsRest es ++ ']' :: rest) = serItemsRest es ++ ']' :: rest := by
  cases es with
  | nil =>
    rw [serItemsRest_nil, List.nil_append]
    exact skipWs_not_ws _ (by decide)
  | cons e es =>
    rw [serItemsRest_cons]
    simp only [List.cons_append]
    exact skipWs_not_ws _ (by decide)

theorem skipWs_serFieldsRest_close (fs : List (String × Json)) (rest : List Char) :
    skipWs (serFieldsRest fs ++ rbraceC :: rest) = serFieldsRest fs ++ rbraceC :: rest := by
  cases fs with
  | nil =>
    rw [serFieldsRest_nil, List.nil_append]
    exact skipWs_not_ws _ (by decide)
  | cons f fs =>
    obtain ⟨k, v⟩ := f
    rw [serFieldsRest_cons]
    simp only [List.cons_append]
    exact skipWs_not_ws _ (by decide)

theorem numSafe_nil : numSafe [] := by
  intro c hc
  simp at hc

theorem numSafe_serItemsRest_close (es : List Json) (rest : List Char) :
    numSafe (serItemsRest es ++ ']' :: rest) := by
  cases es with
  | nil =>
    intro c hc
    rw [serItemsRest_nil, List.nil_append] at hc
    simp at hc
    subst hc
    decide
  | cons e es =>
    intro c hc
    rw [serItemsRest_cons] at hc
    simp only [List.cons_append, List.head?_cons, Option.some.injEq] at hc
    subst hc
    decide

theorem numSafe_serFieldsRest_close (fs : List (String × Json)) (rest : List Char) :
    numSafe (serFieldsRest fs ++ rbraceC :: rest) := by
  cases fs with
  | nil =>
    intro c hc
    rw [serFieldsRest_nil, List.nil_append] at hc
    simp at hc
    subst hc
    decide
  | cons f fs =>
    obtain ⟨k, v⟩ := f
    intro c hc
    rw [serFieldsRest_cons] at hc
    simp only [List.cons_append, List.head?_cons, Option.some.injEq] at hc
    subst hc
    decide

/- Helper lemmas: the fuel measure is bounded by the serialized length -/

theorem serInt_length_pos (n : Int) : 1 ≤ (serInt n).length := by
  rw [serInt]
  by_cases hneg : n < 0
  · simp [hneg]
  · rw [if_neg hneg]
    have := natChars_ne_nil n.toNat
    cases h : natChars n.toNat with
    | nil => exact absurd h this
    | cons c cs => simp

theorem jsize_le_length_aux (n : Nat) :
    (∀ v : Json, sizeOf v ≤ n → jsize v ≤ (serialize v).length) ∧
    (∀ es : List Json, sizeOf es ≤ n → jsizeItems es ≤ (serItemsRest es).length) ∧
    (∀ fs : List (String × Json), sizeOf fs ≤ n → jsizeFields fs ≤ (serFieldsRest fs).length) := by
  induction n with
  | zero =>
    refine ⟨?_, ?_, ?_⟩
    · intro v h
      exfalso
      cases v <;> simp at h
    · intro es h
      exfalso
      cases es <;> simp at h
    · intro fs h
      exfalso
      cases fs <;> simp at h
  | succ n ih =>
    refine ⟨?_, ?_, ?_⟩
    · intro v hv
      cases v with
      | num m => simpa using serInt_length_pos m
      | str s => simp [serString]
      | bool b => cases b <;> simp
      | null => simp
      | nan => simp
      | arr es =>
        cases es with
        | nil => simp
        | cons e es =>
          have h1 : sizeOf e ≤ n := by
            simp at hv
            omega
          have h2 : sizeOf es ≤ n := by
            simp at hv
            omega
          have ihe := ih.1 e h1
          have ihes := ih.2.1 es h2
          simp
          omega
      | obj fs =>
        cases fs with
        | nil => simp
        | cons f fs =>
          obtain ⟨k, v⟩ := f
          have h1 : sizeOf v ≤ n := by
            simp at hv
            omega
          have h2 : sizeOf fs ≤ n := by
            simp at hv
            omega
          have ihv := ih.1 v h1
          have ihfs := ih.2.2 fs h2
          simp [serString]
          omega
    · intro es hes
      cases es with
      | nil => simp
      | cons e es =>
        have h1 : sizeOf e ≤ n := by
          simp at hes
          omega
        have h2 : sizeOf es ≤ n := by
          simp at hes
          omega
        have ihe := ih.1 e h1
        have ihes := ih.2.1 es h2
        simp
        omega
    · intro fs hfs
      cases fs with
      | nil => simp
      | cons f fs =>
        obtain ⟨k, v⟩ := f
        have h1 : sizeOf v ≤ n := by
          simp at hfs
          omega
        have h2 : sizeOf fs ≤ n := by
          simp at hfs
          omega
        have ihv := ih.1 v h1
        have ihfs := ih.2.2 fs h2
        simp [serString]
        omega

theorem jsize_le_length (v : Json) : jsize v ≤ (serialize v).length :=
  (jsize_le_length_aux (sizeOf v)).1 v le_rfl

/- Helper lemmas: parser dispatch steps -/

theorem parseTok_lbracket (fuel : Nat) (r : List Char) :
    parseTok fuel ('[' :: r) =
      (let r1 := skipWs r
       if r1.head? = some ']' then some (Json.arr [], r1.tail)
       else
         match fuel with
         | 0 => none
         | fuel' + 1 =>
           match parseTok fuel' r1 with
           | some (v, r2) =>
             match parseArrayRestTok fuel' (skipWs r2) with
             | some (vs, r3) => some (Json.arr (v :: vs), r3)
             | none => none
           | none => none) := by
  rw [parseTok.eq_def]
  simp [chr_lbracket_ne_quoteC]

theorem parseTok_lbraceC (fuel : Nat) (r : List Char) :
    parseTok fuel (lbraceC :: r) =
      (match skipWs r with
       | [] => none
       | c2 :: r2 =>
         if c2 = rbraceC then some (Json.obj [], r2)
         else
           match fuel with
           | 0 => none
           | fuel' + 1 =>
             match parseFieldTok fuel' (c2 :: r2) with
             | some (f, r3) =>
               match parseObjRestTok fuel' (skipWs r3) with
               | some (fs, r4) => some (Json.obj (f :: fs), r4)
               | none => none
             | none => none) := by
  rw [parseTok.eq_def]
  simp [chr_lbraceC_facts.1, chr_lbraceC_facts.2]

theorem parseFieldTok_quoteC (fuel : Nat) (r : List Char) :
    parseFieldTok fuel (quoteC :: r) =
      (match parseStringBody r with
       | some (kcs, r2) =>
         match skipWs r2 with
         | [] => none
         | c2 :: r3 =>
           if c2 = ':' then
             match fuel with
             | 0 => none
             | fuel' + 1 =>
               match parseTok fuel' (skipWs r3) with
               | some (v, r4) => some ((String.mk kcs, v), r4)
               | none => none
           else none
       | none => none) := by
  rw [parseFieldTok.eq_def]
  simp

theorem parseArrayRestTok_close (fuel : Nat) (r : List Char) :
    parseArrayRestTok fuel (']' :: r) = some ([], r) := by
  rw [parseArrayRestTok.eq_def]
  simp

theorem parseArrayRestTok_comma (fuel : Nat) (r : List Char) :
    parseArrayRestTok fuel (',' :: r) =
      (match fuel with
       | 0 => none
       | fuel' + 1 =>
         match parseTok fuel' (skipWs r) with
         | some (v, r2) =>
           match parseArrayRestTok fuel' (skipWs r2) with
           | some (vs, r3) => some (v :: vs, r3)
           | none => none
         | none => none) := by
  rw [parseArrayRestTok.eq_def]
  simp

theorem parseObjRestTok_close (fuel : Nat) (r : List Char) :
    parseObjRestTok fuel (rbraceC :: r) = some ([], r) := by
  rw [parseObjRestTok.eq_def]
  simp

theorem parseObjRestTok_comma (fuel : Nat) (r : List Char) :
    parseObjRestTok fuel (',' :: r) =
      (match fuel with
       | 0 => none
       | fuel' + 1 =>
         match parseFieldTok fuel' (skipWs r) with
         | some (f, r2) =>
           match parseObjRestTok fuel' (skipWs r2) with
           | some (fs, r3) => some (f :: fs, r3)
           | none => none
         | none => none) := by
  rw [parseObjRestTok.eq_def]
  simp [show (',' : Char) ≠ rbraceC by decide]

theorem serString_append (k : String) (y : List Char) :
    serString k ++ y = quoteC :: (escapeList k.data ++ quoteC :: y) := by
  rw [serString]
  simp

theorem parseTok_lbracket_succ (f : Nat) (r : List Char) :
    parseTok (f + 1) ('[' :: r) =
      (if (skipWs r).head? = some ']' then some (Json.arr [], (skipWs r).tail)
       else
         match parseTok f (skipWs r) with
         | some (v, r2) =>
           match parseArrayRestTok f (skipWs r2) with
           | some (vs, r3) => some (Json.arr (v :: vs), r3)
           | none => none
         | none => none) := by
  rw [parseTok.eq_def]
  simp [chr_lbracket_ne_quoteC]

theorem parseTok_lbraceC_succ (f : Nat) (r : List Char) :
    parseTok (f + 1) (lbraceC :: r) =
      (match skipWs r with
       | [] => none
       | c2 :: r2 =>
         if c2 = rbraceC then some (Json.obj [], r2)
         else
           match parseFieldTok f (c2 :: r2) with
           | some (fd, r3) =>
             match parseObjRestTok f (skipWs r3) with
             | some (fs, r4) => some (Json.obj (fd :: fs), r4)
             | none => none
           | none => none) := by
  rw [parseTok.eq_def]
  simp [chr_lbraceC_facts.1, chr_lbraceC_facts.2]

theorem parseFieldTok_quoteC_succ (f : Nat) (r : List Char) :
    parseFieldTok (f + 1) (quoteC :: r) =
      (match parseStringBody r with
       | some (kcs, r2) =>
         match skipWs r2 with
         | [] => none
         | c2 :: r3 =>
           if c2 = ':' then
             match parseTok f (skipWs r3) with
             | some (v, r4) => some ((String.mk kcs, v), r4)
             | none => none
           else none
       | none => none) := by
  rw [parseFieldTok.eq_def]
  simp

theorem parseArrayRestTok_comma_succ (f : Nat) (r : List Char) :
    parseArrayRestTok (f + 1) (',' :: r) =
      (match parseTok f (skipWs r) with
       | some (v, r2) =>
         match parseArrayRestTok f (skipWs r2) with
         | some (vs, r3) => some (v :: vs, r3)
         | none => none
       | none => none) := by
  rw [parseArrayRestTok.eq_def]
  simp

theorem parseObjRestTok_comma_succ (f : Nat) (r : List Char) :
    parseObjRestTok (f + 1) (',' :: r) =
      (match parseFieldTok f (skipWs r) with
       | some (fd, r2) =>
         match parseObjRestTok f (skipWs r2) with
         | some (fs, r3) => some (fd :: fs, r3)
         | none => none
       | none => none) := by
  rw [parseObjRestTok.eq_def]
  simp [show (',' : Char) ≠ rbraceC by decide]

/- The round-trip theorem for the serializer and parser, by induction on
the fuel. -/

theorem isWsChar_colon : isWsChar ':' = false := by decide

theorem isWsChar_space : isWsChar ' ' = true := by decide

theorem parse_ser_main (fuel : Nat) :
    (∀ v rest, jsize v ≤ fuel → numSafe rest →
      parseTok fuel (serialize v ++ rest) = some (v, rest)) ∧
    (∀ es rest, jsizeItems es ≤ fuel →
      parseArrayRestTok fuel (serItemsRest es ++ ']' :: rest) = some (es, rest)) ∧
    (∀ fs rest, jsizeFields fs ≤ fuel →
      parseObjRestTok fuel (serFieldsRest fs ++ rbraceC :: rest) = some (fs, rest)) ∧
    (∀ k v rest, 1 + jsize v ≤ fuel → numSafe rest →
      parseFieldTok fuel (serString k ++ ':' :: ' ' :: (serialize v ++ rest)) =
        some ((k, v), rest)) := by
  induction fuel with
  | zero =>
    refine ⟨?_, ?_, ?_, ?_⟩
    · intro v rest h _
      have := jsize_pos v
      omega
    · intro es rest h
      cases es with
      | nil =>
        rw [serItemsRest_nil, List.nil_append]
        exact parseArrayRestTok_close 0 rest
      | cons e es =>
        rw [jsizeItems_cons] at h
        omega
    · intro fs rest h
      cases fs with
      | nil =>
        rw [serFieldsRest_nil, List.nil_append]
        exact parseObjRestTok_close 0 rest
      | cons g fs =>
        obtain ⟨k, v⟩ := g
        rw [jsizeFields_cons] at h
        omega
    · intro k v rest h _
      omega
  | succ f ih =>
    obtain ⟨ihA, ihB, ihC, ihD⟩ := ih
    refine ⟨?_, ?_, ?_, ?_⟩
    · intro v rest hsize hsafe
      cases v with
      | num n =>
        rw [serialize_num]
        exact parseTok_serInt (f + 1) n rest hsafe
      | str s =>
        rw [serialize_str]
        exact parseTok_serString (f + 1) s rest
      | bool b =>
        cases b with
        | true =>
          have hs : serialize (Json.bool true) = ['t', 'r', 'u', 'e'] := by simp
          rw [hs]
          simp only [List.cons_append, List.nil_append]
          exact parseTok_true (f + 1) rest
        | false =>
          have hs : serialize (Json.bool false) = ['f', 'a', 'l', 's', 'e'] := by simp
          rw [hs]
          simp only [List.cons_append, List.nil_append]
          exact parseTok_false (f + 1) rest
      | null =>
        rw [serialize_null]
        simp only [List.cons_append, List.nil_append]
        exact parseTok_null (f + 1) rest
      | nan =>
        rw [serialize_nan]
        simp only [List.cons_append, List.nil_append]
        exact parseTok_nan (f + 1) rest
      | arr es =>
        cases es with
        | nil =>
          rw [serialize_arr_nil]
          simp only [List.cons_append, List.nil_append]
          rw [parseTok_lbracket_succ]
          have hsk : skipWs (']' :: rest) = ']' :: rest := skipWs_not_ws _ (by decide)
          simp [hsk]
        | cons e es =>
          rw [serialize_arr_cons]
          simp only [List.cons_append, List.append_assoc, List.singleton_append,
            List.nil_append]
          rw [parseTok_lbracket_succ, skipWs_serialize]
          rw [if_neg (serialize_head_ne_rbracket e (serItemsRest es ++ ']' :: rest))]
          rw [jsize_arr_cons] at hsize
          rw [ihA e (serItemsRest es ++ ']' :: rest) (by omega)
            (numSafe_serItemsRest_close es rest)]
          simp [skipWs_serItemsRest_close, ihB es rest (by omega)]
      | obj fs =>
        cases fs with
        | nil =>
          rw [serialize_obj_nil]
          simp only [List.cons_append, List.nil_append]
          rw [parseTok_lbraceC_succ]
          have hsk : skipWs (rbraceC :: rest) = rbraceC :: rest := skipWs_not_ws _ (by decide)
          simp [hsk]
        | cons g fs =>
          obtain ⟨k, v⟩ := g
          rw [serialize_obj_cons]
          simp only [List.cons_append, List.append_assoc, List.singleton_append,
            List.nil_append]
          rw [parseTok_lbraceC_succ, skipWs_serString, serString_append]
          rw [jsize_obj_cons] at hsize
          have hD := ihD k v (serFieldsRest fs ++ rbraceC :: rest) (by omega)
            (numSafe_serFieldsRest_close fs rest)
          rw [serString_append] at hD
          simp [show quoteC ≠ rbraceC by decide, hD, skipWs_serFieldsRest_close,
            ihC fs rest (by omega)]
    · intro es rest hs
      cases es with
      | nil =>
        rw [serItemsRest_nil, List.nil_append]
        exact parseArrayRestTok_close (f + 1) rest
      | cons e es =>
        rw [serItemsRest_cons]
        simp only [List.cons_append, List.append_assoc, List.nil_append]
        rw [parseArrayRestTok_comma_succ]
        rw [skipWs_ws _ (by decide), skipWs_serialize]
        rw [jsizeItems_cons] at hs
        rw [ihA e (serItemsRest es ++ ']' :: rest) (by omega)
          (numSafe_serItemsRest_close es rest)]
        simp [skipWs_serItemsRest_close, ihB es rest (by omega)]
    · intro fs rest hs
      cases fs with
      | nil =>
        rw [serFieldsRest_nil, List.nil_append]
        exact parseObjRestTok_close (f + 1) rest
      | cons g fs =>
        obtain ⟨k, v⟩ := g
        rw [serFieldsRest_cons]
        simp only [List.cons_append, List.append_assoc, List.nil_append]
        rw [parseObjRestTok_comma_succ]
        rw [skipWs_ws _ (by decide), skipWs_serString]
        rw [jsizeFields_cons] at hs
        have hD := ihD k v (serFieldsRest fs ++ rbraceC :: rest) (by omega)
          (numSafe_serFieldsRest_close fs rest)
        rw [hD]
        simp [skipWs_serFieldsRest_close, ihC fs rest (by omega)]
    · intro k v rest hf hsafe
      rw [serString_append, parseFieldTok_quoteC_succ, parseStringBody_escape]
      have hA := ihA v rest (by omega) hsafe
      simp [skipWs_not_ws, skipWs_ws, isWsChar_colon, isWsChar_space,
        skipWs_serialize, hA]

/-- The JSON round trip: parsing the serialized form of any value
gives back exactly that value. -/
theorem json_roundtrip (v : Json) : json_loads (json_dumps v) = some v := by
  have hsz := jsize_le_length v
  have h := (parse_ser_main ((serialize v).length + 1)).1 v [] (by omega) numSafe_nil
  rw [List.append_nil] at h
  have hskip : skipWs (serialize v) = serialize v := by
    have h2 := skipWs_serialize v []
    simpa using h2
  rw [json_dumps, json_loads]
  simp only [hskip, h]
  simp [skipWs]

/- Helper lemmas: the predictor's data reshaping -/

theorem columns_for_df_length : columns_for_df.length = 12 := by decide

theorem asRowsList_map (rows : List (List Json)) :
    asRowsList (rows.map Json.arr) = some rows := by
  induction rows with
  | nil => simp [asRowsList]
  | cons r rows ih =>
    simp only [List.map_cons]
    rw [asRowsList, ih]

theorem asRows_arr_map (rows : List (List Json)) :
    asRows (Json.arr (rows.map Json.arr)) = some rows := by
  rw [asRows]
  exact asRowsList_map rows

theorem max_row_width_const (rows : List (List Json)) (hne : rows ≠ [])
    (hlen : ∀ r ∈ rows, r.length = 12) : max_row_width rows = 12 := by
  induction rows with
  | nil => exact absurd rfl hne
  | cons r rows ih =>
    rw [max_row_width]
    simp only [List.foldr_cons]
    have hr : r.length = 12 := hlen r (by simp)
    cases rows with
    | nil =>
      simp [max_row_width, hr]
    | cons r2 rows2 =>
      have := ih (by simp) (fun x hx => hlen x (by simp [hx]))
      rw [max_row_width] at this
      simp only [List.foldr_cons] at this ⊢
      omega

theorem pad_row_exact (r : List Json) (hr : r.length = 12) : pad_row 12 r = r := by
  rw [pad_row, hr]
  simp

theorem map_pad_row_exact (rows : List (List Json))
    (hlen : ∀ r ∈ rows, r.length = 12) : rows.map (pad_row 12) = rows := by
  induction rows with
  | nil => simp
  | cons r rows ih =>
    simp only [List.map_cons]
    rw [pad_row_exact r (hlen r (by simp)), ih (fun x hx => hlen x (by simp [hx]))]

theorem pd_DataFrame_exact (rows : List (List Json))
    (hlen : ∀ r ∈ rows, r.length = 12) :
    pd_DataFrame rows columns_for_df = some rows := by
  cases rows with
  | nil => simp [pd_DataFrame]
  | cons r rows =>
    have hmax := max_row_width_const (r :: rows) (by simp) hlen
    have hmap := map_pad_row_exact (r :: rows) hlen
    simp [pd_DataFrame, hmax, columns_for_df_length, hmap]

theorem pd_DataFrame_mismatch (rows : List (List Json)) (hne : rows ≠ [])
    (hw : max_row_width rows ≠ 12) :
    pd_DataFrame rows columns_for_df = none := by
  cases rows with
  | nil => exact absurd rfl hne
  | cons r rows =>
    simp [pd_DataFrame, columns_for_df_length, hw]

theorem lookup_filter_none {β : Type} (l : List (String × β)) (k k2 : String)
    (h : l.lookup k = none) :
    (l.filter (fun kv => kv.1 != k2)).lookup k = none := by
  induction l with
  | nil => simp
  | cons kv l ih =>
    obtain ⟨k3, v3⟩ := kv
    rw [List.lookup] at h
    by_cases he : k == k3
    · simp [he] at h
    · simp only [he] at h
      by_cases hf : k3 != k2
      · simp only [List.filter_cons, hf, if_pos]
        rw [List.lookup]
        simp only [he]
        exact ih h
      · simp only [List.filter_cons]
        simp only [hf]
        simp only [Bool.false_eq_true, if_false]
        exact ih h

/- Helper lemmas: predictor outcomes -/

theorem predictor_outcome_rows (payload : String)
    (fields0 fields1 fields2 : List (String × Json)) (rows : List (List Json))
    (hp : json_loads payload = some (Json.obj fields0))
    (hc : dict_pop fields0 "columns" = some fields1)
    (hi : dict_pop fields1 "index" = some fields2)
    (hd : fields2.lookup "data" = some (Json.arr (rows.map Json.arr)))
    (hlen : ∀ r ∈ rows, r.length = 12) :
    predictor_outcome payload =
      Except.ok (Json.arr (rows.map (fun r => Json.obj (columns_for_df.zip r)))) := by
  simp only [predictor_outcome, hp, hc, hi, hd, asRows_arr_map,
    pd_DataFrame_exact rows hlen, df_records, json_roundtrip, List.map_map]
  simp [Function.comp]

theorem predictor_outcome_width (payload : String)
    (fields0 fields1 fields2 : List (String × Json)) (rows : List (List Json))
    (hp : json_loads payload = some (Json.obj fields0))
    (hc : dict_pop fields0 "columns" = some fields1)
    (hi : dict_pop fields1 "index" = some fields2)
    (hd : fields2.lookup "data" = some (Json.arr (rows.map Json.arr)))
    (hne : rows ≠ []) (hw : max_row_width rows ≠ 12) :
    predictor_outcome payload = Except.error PredictorFailure.dataFrameError := by
  simp only [predictor_outcome, hp, hc, hi, hd, asRows_arr_map,
    pd_DataFrame_mismatch rows hne hw]

theorem predictor_outcome_keyError (payload : String) (fields0 : List (String × Json))
    (hp : json_loads payload = some (Json.obj fields0))
    (h : fields0.lookup "columns" = none ∨ fields0.lookup "index" = none) :
    predictor_outcome payload = Except.error (PredictorFailure.keyError "columns") ∨
    predictor_outcome payload = Except.error (PredictorFailure.keyError "index") := by
  by_cases hc0 : fields0.lookup "columns" = none
  · left
    have hc : dict_pop fields0 "columns" = none := by simp [dict_pop, hc0]
    simp [predictor_outcome, hp, hc]
  · rcases h with h | h
    · exact absurd h hc0
    · right
      obtain ⟨v0, hv0⟩ : ∃ v, fields0.lookup "columns" = some v := by
        cases hcc : fields0.lookup "columns" with
        | none => exact absurd hcc hc0
        | some v => exact ⟨v, rfl⟩
      have hc : dict_pop fields0 "columns" =
          some (fields0.filter (fun kv => kv.1 != "columns")) := by
        simp [dict_pop, hv0]
      have hi : dict_pop (fields0.filter (fun kv => kv.1 != "columns")) "index" = none := by
        have hlf := lookup_filter_none fields0 "index" "columns" h
        simp [dict_pop, hlf]
      simp [predictor_outcome, hp, hc, hi]

/- Claim theorems -/

/-- C1: deployment_trigger returns true if and only if the accuracy is
strictly greater than the configured min_accuracy threshold; in
particular it returns false when the accuracy equals the threshold. -/
theorem C1_deployment_trigger_strict (a : ℚ) (config : DeploymentTriggerConfig) :
    (deployment_trigger a config = true ↔ a > config.min_accuracy) ∧
    (a = config.min_accuracy → deployment_trigger a config = false) := by
  constructor
  · simp [deployment_trigger]
  · intro h
    subst h
    simp [deployment_trigger]

theorem C1_deployment_trigger_strict_witness :
    deployment_trigger (82 / 100) ⟨7 / 10⟩ = true ∧
    deployment_trigger (7 / 10) ⟨7 / 10⟩ = false :=
  ⟨(C1_deployment_trigger_strict (82 / 100) ⟨7 / 10⟩).1.mpr (by norm_num),
   (C1_deployment_trigger_strict (7 / 10) ⟨7 / 10⟩).2 rfl⟩

/-- C7: deployment_trigger is a pure total function: on every rational
accuracy and config it yields a boolean (true or false, no error path
exists), and equal inputs give equal results. -/
theorem C7_deployment_trigger_total (a a2 : ℚ) (c c2 : DeploymentTriggerConfig) :
    (deployment_trigger a c = true ∨ deployment_trigger a c = false) ∧
    (a = a2 → c = c2 → deployment_trigger a c = deployment_trigger a2 c2) := by
  constructor
  · cases h : deployment_trigger a c
    · exact Or.inr rfl
    · exact Or.inl rfl
  · intro h1 h2
    rw [h1, h2]

theorem C7_deployment_trigger_total_witness :
    deployment_trigger 1 ⟨0⟩ = deployment_trigger 1 ⟨0⟩ ∧
    (deployment_trigger 1 ⟨0⟩ = true ∨ deployment_trigger 1 ⟨0⟩ = false) :=
  ⟨(C7_deployment_trigger_total 1 1 ⟨0⟩ ⟨0⟩).2 rfl rfl,
   (C7_deployment_trigger_total 1 1 ⟨0⟩ ⟨0⟩).1⟩

/-- C4: when the external deployer finds no matching service,
prediction_service_loader raises a RuntimeError whose message names the
pipeline, the step and the model; when it finds one or more services it
returns the first and raises nothing. -/
theorem C4_prediction_service_loader_spec {Service : Type}
    (find_model_server : String → String → String → Bool → List Service)
    (p s m : String) (r : Bool) :
    (find_model_server p s m r = [] →
      prediction_service_loader find_model_server p s r m =
        Except.error (loader_error_message p s m) ∧
      ∃ x1 x2 x3 x4, loader_error_message p s m = x1 ++ p ++ x2 ++ s ++ x3 ++ m ++ x4) ∧
    (∀ svc rest, find_model_server p s m r = svc :: rest →
      prediction_service_loader find_model_server p s r m = Except.ok svc) := by
  constructor
  · intro h
    constructor
    · simp [prediction_service_loader, h]
    · refine ⟨"No MLFlow Deployment service found for pipeline ", ". step ", " and model ",
        ". Pipeline for the '" ++ m ++ "' model is currently running.", ?_⟩
      rw [loader_error_message]
      simp [String.append_assoc]
  · intro svc rest h
    simp [prediction_service_loader, h]

theorem C4_prediction_service_loader_spec_witness :
    prediction_service_loader (fun _ _ _ _ => ([] : List Unit)) "p" "s" true "model" =
      Except.error (loader_error_message "p" "s" "model") ∧
    prediction_service_loader (fun _ _ _ _ => [()]) "p" "s" true "model" = Except.ok () :=
  ⟨((C4_prediction_service_loader_spec (fun _ _ _ _ => ([] : List Unit))
      "p" "s" "model" true).1 rfl).1,
   (C4_prediction_service_loader_spec (fun _ _ _ _ => [()])
      "p" "s" "model" true).2 () [] rfl⟩

/-- C2 counterexample: the claim says the running flag inference_pipeline
passes to the service locator is true (the locator's default).  At a
concrete instantiation the flag actually passed is false, which differs
from the locator's default. -/
theorem C2_running_flag_counterexample :
    (inference_pipeline_loader_call "continuous_deployment_pipeline"
        "mlflow_model_deployer_step").running = false ∧
    (inference_pipeline_loader_call "continuous_deployment_pipeline"
        "mlflow_model_deployer_step").running ≠ prediction_service_loader_default_running := by
  constructor
  · rfl
  · intro h
    simp [inference_pipeline_loader_call, prediction_service_loader_default_running] at h

/-- C2 amended: inference_pipeline invokes the service locator with
running set to false (overriding the locator's default of true) and the
default model name, so non-running services are matched as well. -/
theorem C2_inference_pipeline_running_flag (p s : String) :
    (inference_pipeline_loader_call p s).running = false ∧
    (inference_pipeline_loader_call p s).model_name =
      prediction_service_loader_default_model_name ∧
    prediction_service_loader_default_running = true ∧
    (∀ (Service : Type) (find : String → String → String → Bool → List Service)
        (imported_data : String),
      inference_pipeline find imported_data p s =
        match prediction_service_loader find p s false
            prediction_service_loader_default_model_name with
        | Except.error e => Except.error e
        | Except.ok svc => Except.ok (svc, predictor imported_data)) :=
  ⟨rfl, rfl, rfl, fun _ _ _ => rfl⟩

/-- C3 counterexample: for the payload whose single data row has 11
values, predictor fails locally at the pandas DataFrame construction
stage, so nothing is ever forwarded to the service's predict call; the
claimed failure inside the external prediction call never happens
because that call is never reached. -/
theorem C3_predictor_row_width_counterexample :
    (predictor "\x7b\"columns\": [], \"index\": [], \"data\": [[1, 2, 3, 4, 5, 6, 7, 8, 9, 10, 11]]\x7d").outcome
      = Except.error PredictorFailure.dataFrameError := rfl

/-- C3 amended: predictor indeed performs no locally authored validation
of per-row value counts, but a list-of-rows payload whose maximal row
width differs from 12 fails inside the pandas DataFrame constructor,
before any data is forwarded to the service's predict call (shorter rows
are NaN-padded by pandas when the maximal width is 12, so only the
maximal width is checked). -/
theorem C3_width_mismatch_fails_before_predict (payload : String)
    (fields0 fields1 fields2 : List (String × Json)) (rows : List (List Json))
    (hp : json_loads payload = some (Json.obj fields0))
    (hc : dict_pop fields0 "columns" = some fields1)
    (hi : dict_pop fields1 "index" = some fields2)
    (hd : fields2.lookup "data" = some (Json.arr (rows.map Json.arr)))
    (hne : rows ≠ []) (hw : max_row_width rows ≠ 12) :
    (predictor payload).outcome = Except.error PredictorFailure.dataFrameError :=
  predictor_outcome_width payload fields0 fields1 fields2 rows hp hc hi hd hne hw

theorem C3_width_mismatch_fails_before_predict_witness :
    (predictor "\x7b\"columns\": [], \"index\": [], \"data\": [[1, 2]]\x7d").outcome
      = Except.error PredictorFailure.dataFrameError :=
  C3_width_mismatch_fails_before_predict _
    [("columns", Json.arr []), ("index", Json.arr []),
     ("data", Json.arr [Json.arr [Json.num 1, Json.num 2]])]
    [("index", Json.arr []), ("data", Json.arr [Json.arr [Json.num 1, Json.num 2]])]
    [("data", Json.arr [Json.arr [Json.num 1, Json.num 2]])]
    [[Json.num 1, Json.num 2]]
    rfl rfl rfl rfl (by simp) (by decide)

/-- C5: for payloads whose data rows each hold exactly 12 values,
predictor drops the columns and index keys, rebuilds each row as a
record in the hardcoded 12-column order, and the array forwarded to the
service's predict call has the same number of rows as the data field,
each row's values in the same order as in that field. -/
theorem C5_predictor_preserves_rows (payload : String)
    (fields0 fields1 fields2 : List (String × Json)) (rows : List (List Json))
    (hp : json_loads payload = some (Json.obj fields0))
    (hc : dict_pop fields0 "columns" = some fields1)
    (hi : dict_pop fields1 "index" = some fields2)
    (hd : fields2.lookup "data" = some (Json.arr (rows.map Json.arr)))
    (hlen : ∀ r ∈ rows, r.length = 12) :
    (predictor payload).outcome =
      Except.ok (Json.arr (rows.map (fun r => Json.obj (columns_for_df.zip r)))) ∧
    (rows.map (fun r => Json.obj (columns_for_df.zip r))).length = rows.length ∧
    (∀ r ∈ rows, (columns_for_df.zip r).map Prod.snd = r) := by
  refine ⟨predictor_outcome_rows payload fields0 fields1 fields2 rows hp hc hi hd hlen,
    by simp, ?_⟩
  intro r hr
  exact List.map_snd_zip columns_for_df r
    (by rw [columns_for_df_length, hlen r hr])

theorem C5_predictor_preserves_rows_witness :
    (predictor "\x7b\"columns\": [\"c\"], \"index\": [0], \"data\": [[1, 2, 3, 4, 5, 6, 7, 8, 9, 10, 11, 12]]\x7d").outcome
      = Except.ok (Json.arr ([[Json.num 1, Json.num 2, Json.num 3, Json.num 4,
          Json.num 5, Json.num 6, Json.num 7, Json.num 8, Json.num 9, Json.num 10,
          Json.num 11, Json.num 12]].map
            (fun r => Json.obj (columns_for_df.zip r)))) :=
  (C5_predictor_preserves_rows
    "\x7b\"columns\": [\"c\"], \"index\": [0], \"data\": [[1, 2, 3, 4, 5, 6, 7, 8, 9, 10, 11, 12]]\x7d"
    [("columns", Json.arr [Json.str "c"]), ("index", Json.arr [Json.num 0]),
     ("data", Json.arr [Json.arr [Json.num 1, Json.num 2, Json.num 3, Json.num 4,
       Json.num 5, Json.num 6, Json.num 7, Json.num 8, Json.num 9, Json.num 10,
       Json.num 11, Json.num 12]])]
    [("index", Json.arr [Json.num 0]),
     ("data", Json.arr [Json.arr [Json.num 1, Json.num 2, Json.num 3, Json.num 4,
       Json.num 5, Json.num 6, Json.num 7, Json.num 8, Json.num 9, Json.num 10,
       Json.num 11, Json.num 12]])]
    [("data", Json.arr [Json.arr [Json.num 1, Json.num 2, Json.num 3, Json.num 4,
       Json.num 5, Json.num 6, Json.num 7, Json.num 8, Json.num 9, Json.num 10,
       Json.num 11, Json.num 12]])]
    [[Json.num 1, Json.num 2, Json.num 3, Json.num 4, Json.num 5, Json.num 6,
      Json.num 7, Json.num 8, Json.num 9, Json.num 10, Json.num 11, Json.num 12]]
    rfl rfl rfl rfl (by simp)).1

/-- C6: the hardcoded feature schema used by predictor has exactly these
12 column names, in exactly this order. -/
theorem C6_columns_for_df_spec :
    columns_for_df =
      ["payment_sequential", "payment_installments", "payment_value", "price",
       "freight_value", "product_name_lenght", "product_description_lenght",
       "product_photos_qty", "product_weight_g", "product_length_cm",
       "product_height_cm", "product_width_cm"] ∧
    columns_for_df.length = 12 :=
  ⟨rfl, rfl⟩

/-- C8: for a payload that parses to a JSON object lacking the columns
key or the index key, predictor fails locally with a KeyError for one of
those keys (pop is called without a default), before any data is
forwarded to the service. -/
theorem C8_predictor_missing_key (payload : String) (fields0 : List (String × Json))
    (hp : json_loads payload = some (Json.obj fields0))
    (h : fields0.lookup "columns" = none ∨ fields0.lookup "index" = none) :
    ∃ key, (predictor payload).outcome = Except.error (PredictorFailure.keyError key) ∧
      (key = "columns" ∨ key = "index") := by
  rcases predictor_outcome_keyError payload fields0 hp h with h2 | h2
  · exact ⟨"columns", h2, Or.inl rfl⟩
  · exact ⟨"index", h2, Or.inr rfl⟩

theorem C8_predictor_missing_key_witness :
    ∃ key, (predictor "\x7b\"data\": [[1]]\x7d").outcome =
      Except.error (PredictorFailure.keyError key) ∧
      (key = "columns" ∨ key = "index") :=
  C8_predictor_missing_key _ [("data", Json.arr [Json.arr [Json.num 1]])] rfl
    (Or.inl rfl)

/-- C9: the service-start call of predictor always passes the hardcoded
timeout 10: the recorded start timeout is 10 for every payload, and the
step takes no timeout parameter at all, so neither the deployment
pipeline's timeout configuration nor the framework default can reach
it. -/
theorem C9_predictor_start_timeout (imported_data : String) :
    (predictor imported_data).startTimeout = 10 := rfl

/-- C10: the json.loads after json.dumps round trip that predictor
applies to the rebuilt row records is the identity on them: for every
list of 12-value integer rows, parsing the serialized record list gives
back exactly the same record list, so the step changes no values in the
forwarded array. -/
theorem C10_roundtrip_identity (rows : List (List Int))
    (_hlen : ∀ r ∈ rows, r.length = 12) :
    json_loads (json_dumps (Json.arr
        ((df_records columns_for_df (rows.map (List.map Json.num))).map Json.obj))) =
      some (Json.arr
        ((df_records columns_for_df (rows.map (List.map Json.num))).map Json.obj)) :=
  json_roundtrip _

theorem C10_roundtrip_identity_witness :
    json_loads (json_dumps (Json.arr
        ((df_records columns_for_df
          ([[(1 : Int), 2, 3, 4, 5, 6, 7, 8, 9, 10, 11, 12]].map (List.map Json.num))).map
            Json.obj))) =
      some (Json.arr
        ((df_records columns_for_df
          ([[(1 : Int), 2, 3, 4, 5, 6, 7, 8, 9, 10, 11, 12]].map (List.map Json.num))).map
            Json.obj)) :=
  C10_roundtrip_identity [[(1 : Int), 2, 3, 4, 5, 6, 7, 8, 9, 10, 11, 12]] (by decide)
